import Mathlib

/-!
Verification of the capture/render hand-off in `apps/src/openni_fast_mesh.cpp`.

The program registers two handlers: `cloud_cb`, invoked once per incoming
point-cloud frame by the OpenNI grabber, and `viz_cb`, invoked periodically by
the visualisation thread.  They communicate through the member fields
`cloud_`, `vertices_`, `mesh_` and `new_cloud_` of `OpenNIFastMesh`.

The embedding below translates the two handler bodies into pure functions on
an explicit state record.  Each handler invocation is modelled as one atomic
step (the interleaving of handler invocations is arbitrary, chosen by an
event list).  Shared pointers (`CloudConstPtr`, `PolygonMesh::Ptr`,
`shared_ptr<vector<Vertices>>`) become `Option` values, with `none` for a
null pointer; dereferencing a null pointer (`*mesh_` in `viz_cb`) makes the
step return `none` (undefined behaviour).

The mesh-reconstruction routine `pcl::OrganizedFastMesh` is an external
library collaborator; it is modelled as an abstract function recording its
configuration and its input cloud, so that the provenance of every mesh (which
frame it was reconstructed from, with which parameters) is explicit.

The viewer is modelled by the named shape slot `surface` (what
`viz.removeShape`/`viz.addPolygonMesh` maintain), the wireframe rendering
property, and a ghost log `renderLog` recording, for every consuming render,
the frame swapped out of the slot and the mesh handed to the viewer.
-/

namespace OpenNIFastMesh

/-- A captured point-cloud frame (`CloudConstPtr` target), identified by the
capture instant.  The contents of the cloud are irrelevant to the hand-off
logic; only identity matters. -/
structure Frame where
  fid : Nat
deriving DecidableEq, Repr

/-- `pcl::OrganizedFastMesh` triangulation type enumeration (the source uses
`TRIANGLE_ADAPTIVE_CUT`). -/
inductive TriangulationType
  | TRIANGLE_MESH
  | TRIANGLE_ADAPTIVE_CUT
  | TRIANGLE_RIGHT_CUT
  | QUAD_MESH
deriving DecidableEq, Repr

/-- Configuration handed to `pcl::OrganizedFastMesh` in `cloud_cb`. -/
structure OFMParams where
  maxEdgeLength : ℚ
  trianglePixelSize : Nat
  triangulationType : TriangulationType
deriving DecidableEq, Repr

/-- The fixed parameters set in `cloud_cb`:
`setMaxEdgeLength (1.5)`, `setTrianglePixelSize (1)`,
`setTriangulationType (TRIANGLE_ADAPTIVE_CUT)`. -/
def ofmParams : OFMParams :=
  { maxEdgeLength := 3 / 2
    trianglePixelSize := 1
    triangulationType := .TRIANGLE_ADAPTIVE_CUT }

/-- A `pcl::PolygonMesh` produced by `OrganizedFastMesh::reconstruct`.  The
reconstruction algorithm lives in the external surface library; the mesh is
modelled by its provenance: the input cloud and the configuration it was
reconstructed with. -/
structure PolygonMesh where
  sourceFrame : Frame
  params : OFMParams
deriving DecidableEq, Repr

/-- `ofm.setInputCloud (cloud); ofm.reconstruct (*mesh_)` — the external
triangulation routine, as a function of its two inputs. -/
def reconstruct (p : OFMParams) (cloud : Frame) : PolygonMesh :=
  { sourceFrame := cloud, params := p }

/-- The shared state of one `OpenNIFastMesh` object, plus the viewer state it
drives.  Fields `cloud_`, `vertices_`, `mesh_`, `new_cloud_` are the data
members of the class; `surface` is the viewer shape named "surface";
`wireframe` the rendering property set by `setShapeRenderingProperties`;
`renderLog` a ghost history of consuming renders (frame taken out of the
slot, mesh handed to `addPolygonMesh`). -/
structure SysState where
  cloud_ : Option Frame
  vertices_ : Option (List (List Nat))
  mesh_ : Option PolygonMesh
  new_cloud_ : Bool
  surface : Option PolygonMesh
  wireframe : Bool
  renderLog : List (Option Frame × PolygonMesh)
deriving DecidableEq, Repr

/-- The constructor state: `vertices_ ()`, `new_cloud_ (false)`; `cloud_` and
`mesh_` are default-constructed (null) shared pointers; the viewer starts
with no "surface" shape. -/
def initState : SysState :=
  { cloud_ := none
    vertices_ := none
    mesh_ := none
    new_cloud_ := false
    surface := none
    wireframe := false
    renderLog := [] }

/-- `OpenNIFastMesh::cloud_cb`: under the lock, if `!new_cloud_` reset
`mesh_` and `vertices_` and reconstruct the mesh from the new cloud with the
fixed parameters; then unconditionally `cloud_ = cloud; new_cloud_ = true`.
(The `FPS_CALC ("computation")` diagnostic touches only its own static
counters and stdout; it is modelled separately, see `fpsStep`.) -/
def cloud_cb (cloud : Frame) (s : SysState) : SysState :=
  let s1 :=
    if !s.new_cloud_ then
      { s with
        mesh_ := some (reconstruct ofmParams cloud)
        vertices_ := some ([] : List (List Nat)) }
    else s
  { s1 with cloud_ := some cloud, new_cloud_ := true }

/-- `OpenNIFastMesh::viz_cb`: if `!new_cloud_`, sleep 1 ms and return with no
state change.  Otherwise swap `cloud_` into a local (leaving the member
null), then under the lock remove the "surface" shape, add `*mesh_` as the
new "surface", set wireframe rendering, and clear `new_cloud_`.
Dereferencing a null `mesh_` is undefined behaviour, modelled as `none`. -/
def viz_cb (s : SysState) : Option SysState :=
  if !s.new_cloud_ then
    some s
  else
    let temp_cloud := s.cloud_
    let s1 := { s with cloud_ := none }
    match s1.mesh_ with
    | none => none
    | some m =>
        some { s1 with
          surface := some m
          wireframe := true
          new_cloud_ := false
          renderLog := s1.renderLog ++ [(temp_cloud, m)] }

/-- One handler invocation: either the grabber delivers a frame to
`cloud_cb`, or the visualisation thread invokes `viz_cb`. -/
inductive Event
  | capture (f : Frame)
  | render
deriving DecidableEq, Repr

/-- Execute one event. -/
def stepEvent (ev : Event) (s : SysState) : Option SysState :=
  match ev with
  | .capture f => some (cloud_cb f s)
  | .render => viz_cb s

/-- Execute a sequence of events (an interleaving of the two threads at
handler granularity). -/
def runEvents : List Event → SysState → Option SysState
  | [], s => some s
  | ev :: evs, s =>
    match stepEvent ev s with
    | none => none
    | some s' => runEvents evs s'

/-- Last element of a list, with a default for the empty list. -/
def lastD {α : Type} : List α → α → α
  | [], d => d
  | x :: xs, _ => lastD xs x

/-- The state invariant relating the pending flag to the slot contents:
whenever `new_cloud_` is set, both the cloud pointer and the mesh pointer are
non-null. -/
def SlotInv (s : SysState) : Prop :=
  s.new_cloud_ = true → s.cloud_.isSome ∧ s.mesh_.isSome

instance (s : SysState) : Decidable (SlotInv s) := by
  unfold SlotInv
  infer_instance

/-! ### The FPS_CALC diagnostic macro

`FPS_CALC(_WHAT_)` expands, at each textual call site, to a block with two
`static` locals: `unsigned count = 0` and `double last = pcl::getTime ()`
(the latter initialised at the first execution of the call site).  Each
invocation increments `count`; when it reaches 100 the macro prints
`double(count)/double(now - last)` (i.e. `100 / elapsed`), resets `count` to
0 and sets `last = now`.  Each call site owns its own static pair, so each
call site is an independent copy of this machine.  Wall-clock instants are
modelled as rationals. -/

/-- The per-call-site static state of `FPS_CALC`. -/
structure FPSState where
  count : Nat
  last : ℚ
deriving DecidableEq, Repr

/-- One invocation of `FPS_CALC` at wall-clock instant `now`: returns the new
static state and the rate report printed, if any. -/
def fpsStep (now : ℚ) (s : FPSState) : FPSState × Option ℚ :=
  let c := s.count + 1
  if c = 100 then
    ({ count := 0, last := now }, some ((100 : ℚ) / (now - s.last)))
  else
    ({ count := c, last := s.last }, none)

/-- A sequence of `FPS_CALC` invocations at the given instants: final static
state and the list of rate reports printed, in order. -/
def fpsRun : List ℚ → FPSState → FPSState × List ℚ
  | [], s => (s, [])
  | t :: ts, s =>
    let p := fpsStep t s
    let q := fpsRun ts p.1
    (q.1, p.2.toList ++ q.2)

/-! ### The command-line surface of `main`

`main` reads `argv[1]` (empty when absent); on `--help` or `-h` it calls
`usage` and returns 1; otherwise it probes the default grabber for an RGB
cloud callback, runs `OpenNIFastMesh<PointXYZRGB>` or
`OpenNIFastMesh<PointXYZ>` — in both cases constructed with the device id
`""` — and returns 0 when the run loop completes. -/

/-- The point type the viewer is instantiated with. -/
inductive PointMode
  | XYZRGB
  | XYZ
deriving DecidableEq, Repr

/-- Observable outcome of `main`: process exit status, whether `usage` was
invoked, and the device id and point type the viewer was run with (none on
the help path). -/
structure MainResult where
  exitCode : Nat
  printedUsage : Bool
  ranViewer : Option (String × PointMode)
deriving DecidableEq, Repr

/-- `main`, as a function of the arguments after `argv[0]` and of whether the
default grabber provides the RGB point-cloud callback. -/
def mainProg (args : List String) (rgbAvailable : Bool) : MainResult :=
  let arg := (args.head?).getD ""
  if arg = "--help" || arg = "-h" then
    { exitCode := 1, printedUsage := true, ranViewer := none }
  else
    { exitCode := 0
      printedUsage := false
      ranViewer := some ("", if rgbAvailable then .XYZRGB else .XYZ) }

/-! ### Lock discipline

To reason about which shared accesses happen under the mutex, each handler
body is transcribed as a list of micro-operations in source order, one list
per control-flow path.  `boost::mutex::scoped_lock lock (mtx_)` acquires on
construction and releases when the enclosing scope ends. -/

/-- The members of `OpenNIFastMesh` shared between the two handler threads. -/
inductive SharedVar
  | cloudVar
  | verticesVar
  | meshVar
  | flagVar
deriving DecidableEq, Repr

/-- Micro-operations appearing in the handler bodies. -/
inductive Op
  | lockAcquire
  | lockRelease
  | readShared (v : SharedVar)
  | writeShared (v : SharedVar)
  | sleep (ms : Nat)
  | compute
  | vizOp
  | output
deriving DecidableEq, Repr

/-- `cloud_cb`, path taken when `new_cloud_` is false: scoped lock;
`FPS_CALC`; read the flag; reset `mesh_` and `vertices_`; configure the
triangulator and `reconstruct (*mesh_)`; `cloud_ = cloud`;
`new_cloud_ = true`; release at scope end. -/
def cloudCbOpsCompute : List Op :=
  [.lockAcquire, .output, .readShared .flagVar,
   .writeShared .meshVar, .writeShared .verticesVar,
   .compute, .writeShared .meshVar,
   .writeShared .cloudVar, .writeShared .flagVar, .lockRelease]

/-- `cloud_cb`, path taken when `new_cloud_` is already true: the
triangulation block is skipped. -/
def cloudCbOpsSkip : List Op :=
  [.lockAcquire, .output, .readShared .flagVar,
   .writeShared .cloudVar, .writeShared .flagVar, .lockRelease]

/-- `viz_cb`, path taken when `new_cloud_` is false: read the flag (no lock
is held), sleep 1 ms, return. -/
def vizCbOpsIdle : List Op :=
  [.readShared .flagVar, .sleep 1]

/-- `viz_cb`, path taken when `new_cloud_` is true: read the flag and swap
`cloud_` out — both before the lock is acquired — then under the lock
`FPS_CALC`, `removeShape`, `addPolygonMesh (*mesh_)`,
`setShapeRenderingProperties`, `new_cloud_ = false`, release at the inner
scope end. -/
def vizCbOpsConsume : List Op :=
  [.readShared .flagVar, .readShared .cloudVar, .writeShared .cloudVar,
   .lockAcquire, .output, .vizOp, .readShared .meshVar, .vizOp, .vizOp,
   .writeShared .flagVar, .lockRelease]

/-- Does the operation touch the shared Frame/Mesh/PendingFlag state? -/
def accessesShared : Op → Bool
  | .readShared _ => true
  | .writeShared _ => true
  | _ => false

/-- Is the operation a blocking call? (The only one in either handler is the
timed sleep.) -/
def isBlocking : Op → Bool
  | .sleep _ => true
  | _ => false

/-- Annotate each operation with whether the mutex is held while it runs,
given whether it is held on entry. -/
def heldTrace : List Op → Bool → List (Op × Bool)
  | [], _ => []
  | op :: ops, h =>
    let h' :=
      match op with
      | .lockAcquire => true
      | .lockRelease => false
      | _ => h
    (op, h) :: heldTrace ops h'

/-- Every access to the shared state in the path happens with the mutex
held (the handler is entered with the mutex free). -/
def allSharedAccessesLocked (ops : List Op) : Bool :=
  (heldTrace ops false).all fun p => !accessesShared p.1 || p.2

/-- No blocking call in the path happens while the mutex is held. -/
def noBlockingWhileLocked (ops : List Op) : Bool :=
  (heldTrace ops false).all fun p => !isBlocking p.1 || !p.2

/-- The shared-state accesses performed without holding the mutex, in
order. -/
def unlockedSharedAccesses (ops : List Op) : List Op :=
  ((heldTrace ops false).filter fun p => accessesShared p.1 && !p.2).map Prod.fst

/-- Number of unconsumed Frame/Mesh pairs waiting to be rendered: the class
has a single slot (`cloud_`/`mesh_`), occupied exactly when `new_cloud_` is
set; there is no queue. -/
def pendingPairs (s : SysState) : Nat :=
  if s.new_cloud_ = true then 1 else 0

/-! ### Helper lemmas on the handler step functions -/

theorem cloud_cb_fresh (f : Frame) (s : SysState) (h : s.new_cloud_ = false) :
    cloud_cb f s =
      { s with
        mesh_ := some (reconstruct ofmParams f)
        vertices_ := some ([] : List (List Nat))
        cloud_ := some f
        new_cloud_ := true } := by
  simp [cloud_cb, h]

theorem cloud_cb_pending (f : Frame) (s : SysState) (h : s.new_cloud_ = true) :
    cloud_cb f s = { s with cloud_ := some f } := by
  cases s
  simp_all [cloud_cb]

theorem viz_cb_idle (s : SysState) (h : s.new_cloud_ = false) :
    viz_cb s = some s := by
  simp [viz_cb, h]

theorem viz_cb_consume (s : SysState) (m : PolygonMesh)
    (h : s.new_cloud_ = true) (hm : s.mesh_ = some m) :
    viz_cb s =
      some { s with
        cloud_ := none
        surface := some m
        wireframe := true
        new_cloud_ := false
        renderLog := s.renderLog ++ [(s.cloud_, m)] } := by
  simp [viz_cb, h, hm]

theorem slotInv_cloud_cb (f : Frame) (s : SysState) (hs : SlotInv s) :
    SlotInv (cloud_cb f s) := by
  intro _
  rcases hflag : s.new_cloud_ with _ | _
  · rw [cloud_cb_fresh f s hflag]
    simp
  · rw [cloud_cb_pending f s hflag]
    simpa using (hs hflag).2

theorem slotInv_step (ev : Event) (s : SysState) (hs : SlotInv s) :
    ∃ s', stepEvent ev s = some s' ∧ SlotInv s' := by
  cases ev with
  | capture f => exact ⟨cloud_cb f s, rfl, slotInv_cloud_cb f s hs⟩
  | render =>
      rcases hflag : s.new_cloud_ with _ | _
      · exact ⟨s, viz_cb_idle s hflag, hs⟩
      · obtain ⟨m, hm⟩ := Option.isSome_iff_exists.mp (hs hflag).2
        refine ⟨_, viz_cb_consume s m hflag hm, ?_⟩
        intro hc
        simp at hc

theorem runEvents_total_inv (evs : List Event) (s : SysState) (hs : SlotInv s) :
    ∃ s', runEvents evs s = some s' ∧ SlotInv s' := by
  induction evs generalizing s with
  | nil => exact ⟨s, rfl, hs⟩
  | cons ev evs ih =>
      obtain ⟨s1, hstep, hs1⟩ := slotInv_step ev s hs
      obtain ⟨s', hrun, hs'⟩ := ih s1 hs1
      exact ⟨s', by simp [runEvents, hstep, hrun], hs'⟩

theorem slotInv_init : SlotInv initState := by
  intro h
  simp [initState] at h

theorem runEvents_append (a b : List Event) (s : SysState) :
    runEvents (a ++ b) s = (runEvents a s).bind (fun s' => runEvents b s') := by
  induction a generalizing s with
  | nil => simp [runEvents]
  | cons ev a ih =>
      simp only [List.cons_append, runEvents]
      cases stepEvent ev s with
      | none => simp
      | some s1 => simp [ih s1]

theorem slotInv_reachable (evs : List Event) (s : SysState)
    (h : runEvents evs initState = some s) : SlotInv s := by
  obtain ⟨s', hrun, hs'⟩ := runEvents_total_inv evs initState slotInv_init
  rw [h] at hrun
  injection hrun with hh
  exact hh ▸ hs'

theorem lastD_cons {α : Type} (x : α) (xs : List α) (d : α) :
    lastD (x :: xs) d = lastD xs x := rfl

theorem lastD_default_irrel {α : Type} (xs : List α) (hne : xs ≠ []) (a b : α) :
    lastD xs a = lastD xs b := by
  cases xs with
  | nil => exact absurd rfl hne
  | cons x xs => rfl

theorem runEvents_captures_pending (fs : List Frame) (s : SysState)
    (h : s.new_cloud_ = true) :
    runEvents (fs.map .capture) s =
      some { s with cloud_ := lastD (fs.map some) s.cloud_ } := by
  induction fs generalizing s with
  | nil => simp [runEvents, lastD]
  | cons f fs ih =>
      have hstep : stepEvent (.capture f) s = some { s with cloud_ := some f } := by
        simp [stepEvent, cloud_cb_pending f s h]
      simp only [List.map_cons, runEvents, hstep]
      rw [ih { s with cloud_ := some f } h]
      simp [lastD]

theorem runEvents_captures_fresh (f : Frame) (fs : List Frame) (s : SysState)
    (h : s.new_cloud_ = false) :
    runEvents ((f :: fs).map .capture) s =
      some { s with
        mesh_ := some (reconstruct ofmParams f)
        vertices_ := some ([] : List (List Nat))
        cloud_ := lastD (fs.map some) (some f)
        new_cloud_ := true } := by
  have hstep : stepEvent (.capture f) s = some (cloud_cb f s) := rfl
  simp only [List.map_cons, runEvents, hstep]
  rw [cloud_cb_fresh f s h]
  rw [runEvents_captures_pending fs _ (by simp)]

theorem runEvents_renders_idle (k : Nat) (s : SysState)
    (h : s.new_cloud_ = false) :
    runEvents (List.replicate k .render) s = some s := by
  induction k with
  | zero => rfl
  | succ k ih =>
      simp only [List.replicate_succ, runEvents, stepEvent, viz_cb_idle s h]
      exact ih

theorem runEvents_last_capture (evs : List Event) (f : Frame) (s : SysState)
    (h : runEvents (evs ++ [.capture f]) initState = some s) :
    s.cloud_ = some f ∧ s.new_cloud_ = true ∧ s.mesh_.isSome := by
  rw [runEvents_append] at h
  rcases hpre : runEvents evs initState with _ | s0
  · rw [hpre] at h
    simp at h
  · rw [hpre] at h
    have hinv : SlotInv s0 := slotInv_reachable evs s0 hpre
    have hs : s = cloud_cb f s0 := by
      have h' : runEvents [Event.capture f] s0 = some s := by simpa using h
      simp only [runEvents, stepEvent] at h'
      injection h' with h2
      exact h2.symm
    subst hs
    rcases hflag : s0.new_cloud_ with _ | _
    · rw [cloud_cb_fresh f s0 hflag]
      simp
    · rw [cloud_cb_pending f s0 hflag]
      simpa [hflag] using (hinv hflag).2

/-! ### Helper lemmas on the FPS_CALC machine -/

theorem fpsRun_no_report (ts : List ℚ) (s : FPSState)
    (h : s.count + ts.length < 100) :
    fpsRun ts s = ({ count := s.count + ts.length, last := s.last }, []) := by
  induction ts generalizing s with
  | nil => simp [fpsRun]
  | cons t ts ih =>
      have hne : ¬(s.count + 1 = 100) := by
        simp at h
        omega
      have hrec := ih { count := s.count + 1, last := s.last } (by simp at h ⊢; omega)
      simp only [fpsRun, fpsStep, hne, if_false, if_neg hne]
      simp only at hrec
      rw [hrec]
      simp
      omega

theorem fpsRun_report (t : ℚ) (ts : List ℚ) (s : FPSState)
    (h : s.count + ts.length + 1 = 100) :
    fpsRun (t :: ts) s = ({ count := 0, last := lastD ts t }, [100 / (lastD ts t - s.last)]) := by
  induction ts generalizing t s with
  | nil =>
      have h99 : s.count + 1 = 100 := by simpa using h
      simp [fpsRun, fpsStep, h99, lastD]
  | cons t2 ts ih =>
      have hne : ¬(s.count + 1 = 100) := by
        simp at h
        omega
      have hstep : fpsStep t s = ({ count := s.count + 1, last := s.last }, none) := by
        simp [fpsStep, hne]
      have hrec := ih t2 { count := s.count + 1, last := s.last } (by simp at h ⊢; omega)
      simp only [fpsRun, hstep] at hrec ⊢
      rw [lastD_cons]
      simpa using hrec

/-! ### Claim theorems -/

/-- C1, counterexample.  Capturing frames 1, 2, 3 before any render and then
rendering once yields exactly one consuming render — but the mesh it displays
is the one reconstructed from frame 1, not frame 3: `cloud_cb` skips the
triangulation block whenever `new_cloud_` is already set, while still
overwriting `cloud_`.  The claim's "render using F3's mesh" is false. -/
theorem latest_wins_counterexample :
    runEvents
        [.capture ⟨1⟩, .capture ⟨2⟩, .capture ⟨3⟩, .render] initState =
      some
        { cloud_ := none
          vertices_ := some []
          mesh_ := some (reconstruct ofmParams ⟨1⟩)
          new_cloud_ := false
          surface := some (reconstruct ofmParams ⟨1⟩)
          wireframe := true
          renderLog := [(some ⟨3⟩, reconstruct ofmParams ⟨1⟩)] }
    ∧ reconstruct ofmParams ⟨1⟩ ≠ reconstruct ofmParams ⟨3⟩ := by
  constructor
  · rfl
  · simp [reconstruct]

/-- C1 (amended).  For every burst of captures `f, fs` delivered before any
render event, followed by any positive number of render invocations: exactly
one consuming render occurs, and it displays the mesh reconstructed from the
FIRST frame of the burst, while the frame slot it drains holds the LAST
frame of the burst; the remaining render invocations change nothing. -/
theorem burst_captures_single_render (f : Frame) (fs : List Frame) (k : Nat) :
    runEvents ((f :: fs).map .capture ++ List.replicate (k + 1) .render) initState =
      some
        { cloud_ := none
          vertices_ := some []
          mesh_ := some (reconstruct ofmParams f)
          new_cloud_ := false
          surface := some (reconstruct ofmParams f)
          wireframe := true
          renderLog := [(lastD (fs.map some) (some f), reconstruct ofmParams f)] } := by
  rw [runEvents_append, runEvents_captures_fresh f fs initState rfl]
  simp only [Option.some_bind]
  rw [List.replicate_succ]
  have hcons := viz_cb_consume
    { initState with
      mesh_ := some (reconstruct ofmParams f)
      vertices_ := some ([] : List (List Nat))
      cloud_ := lastD (fs.map some) (some f)
      new_cloud_ := true }
    (reconstruct ofmParams f) rfl rfl
  simp only [runEvents, stepEvent, hcons]
  rw [runEvents_renders_idle k _ rfl]
  simp [initState]

/-- C2.  `cloud_cb` reconstructs the mesh (with max edge length 1.5,
triangle pixel size 1, adaptive-cut triangulation) exactly when no frame is
pending; it stores the new frame and raises `new_cloud_` in both cases, and
leaves the mesh untouched when a frame was pending. -/
theorem cloud_cb_contract (s : SysState) (f : Frame) :
    (s.new_cloud_ = false →
      cloud_cb f s =
        { s with
          mesh_ := some (reconstruct ofmParams f)
          vertices_ := some ([] : List (List Nat))
          cloud_ := some f
          new_cloud_ := true })
    ∧ (s.new_cloud_ = true →
      (cloud_cb f s).mesh_ = s.mesh_ ∧ cloud_cb f s = { s with cloud_ := some f })
    ∧ ofmParams =
      { maxEdgeLength := 3 / 2
        trianglePixelSize := 1
        triangulationType := .TRIANGLE_ADAPTIVE_CUT } := by
  refine ⟨fun h => cloud_cb_fresh f s h, fun h => ?_, rfl⟩
  rw [cloud_cb_pending f s h]
  exact ⟨rfl, rfl⟩

/-- C2, witness: both branches of the contract evaluated at concrete
states — the initial state (no frame pending) and the state after one
capture (frame pending). -/
theorem cloud_cb_contract_witness :
    cloud_cb ⟨5⟩ initState =
      { initState with
        mesh_ := some (reconstruct ofmParams ⟨5⟩)
        vertices_ := some ([] : List (List Nat))
        cloud_ := some ⟨5⟩
        new_cloud_ := true }
    ∧ (cloud_cb ⟨6⟩ (cloud_cb ⟨5⟩ initState)).mesh_ = (cloud_cb ⟨5⟩ initState).mesh_ :=
  ⟨(cloud_cb_contract initState ⟨5⟩).1 rfl,
   ((cloud_cb_contract (cloud_cb ⟨5⟩ initState) ⟨6⟩).2.1 rfl).1⟩

/-- C3, counterexample.  In the trace capture 1, capture 2, render: the
render falls between capture 2 and any later capture, yet the pair it
consumes is frame 2 together with the mesh reconstructed from frame 1 — not
the Frame/Mesh pair produced by the preceding capture (capture 2 skipped
mesh production, its mesh would be the frame-2 mesh). -/
theorem render_pair_counterexample :
    runEvents [.capture ⟨1⟩, .capture ⟨2⟩, .render] initState =
      some
        { cloud_ := none
          vertices_ := some []
          mesh_ := some (reconstruct ofmParams ⟨1⟩)
          new_cloud_ := false
          surface := some (reconstruct ofmParams ⟨1⟩)
          wireframe := true
          renderLog := [(some ⟨2⟩, reconstruct ofmParams ⟨1⟩)] }
    ∧ reconstruct ofmParams ⟨1⟩ ≠ reconstruct ofmParams ⟨2⟩ := by
  constructor
  · rfl
  · simp [reconstruct]

/-- C3 (amended).  A render invoked right after a capture of frame `f`
consumes exactly the frame `f` from the slot, paired with the mesh currently
stored (which may have been reconstructed from an earlier frame), and
`new_cloud_` is false immediately after. -/
theorem render_consumes_last_frame (evs : List Event) (f : Frame) (s : SysState)
    (h : runEvents (evs ++ [.capture f]) initState = some s) :
    ∃ m s', s.mesh_ = some m ∧ viz_cb s = some s' ∧
      s'.renderLog = s.renderLog ++ [(some f, m)] ∧ s'.new_cloud_ = false := by
  obtain ⟨hc, hflag, hm⟩ := runEvents_last_capture evs f s h
  obtain ⟨m, hm'⟩ := Option.isSome_iff_exists.mp hm
  exact ⟨m, _, hm', viz_cb_consume s m hflag hm', by simp [hc], rfl⟩

/-- C3, witness: the amended theorem applied to the one-capture trace. -/
theorem render_consumes_last_frame_witness :
    ∃ m s', (cloud_cb ⟨1⟩ initState).mesh_ = some m ∧
      viz_cb (cloud_cb ⟨1⟩ initState) = some s' ∧
      s'.renderLog = (cloud_cb ⟨1⟩ initState).renderLog ++ [(some ⟨1⟩, m)] ∧
      s'.new_cloud_ = false :=
  render_consumes_last_frame [] ⟨1⟩ (cloud_cb ⟨1⟩ initState) rfl

/-- C4.  In every state reachable by any interleaving of capture and render
steps, if `new_cloud_` is set then both the cloud pointer and the mesh
pointer are non-null: the flag is never raised without both being
populated. -/
theorem pending_implies_valid_pair (evs : List Event) (s : SysState)
    (h : runEvents evs initState = some s) (hp : s.new_cloud_ = true) :
    s.cloud_.isSome ∧ s.mesh_.isSome :=
  slotInv_reachable evs s h hp

/-- C4, witness: the invariant evaluated after a single capture. -/
theorem pending_implies_valid_pair_witness :
    (cloud_cb ⟨1⟩ initState).cloud_.isSome ∧ (cloud_cb ⟨1⟩ initState).mesh_.isSome :=
  pending_implies_valid_pair [.capture ⟨1⟩] (cloud_cb ⟨1⟩ initState) rfl rfl

/-- C5, counterexample.  When frame 2 arrives while frame 1 is still
pending, the NEW frame is not dropped: it is stored in the slot, replacing
the unrendered frame 1 (whose cloud is gone, though its mesh remains).  The
claim's "a new incoming Frame ... is dropped" is false. -/
theorem drop_new_frame_counterexample :
    runEvents [.capture ⟨1⟩, .capture ⟨2⟩] initState =
      some
        { cloud_ := some ⟨2⟩
          vertices_ := some []
          mesh_ := some (reconstruct ofmParams ⟨1⟩)
          new_cloud_ := true
          surface := none
          wireframe := false
          renderLog := [] }
    ∧ some (⟨2⟩ : Frame) ≠ some (⟨1⟩ : Frame) := by
  constructor
  · rfl
  · simp

/-- C5 (amended).  At most one Frame/Mesh pair is pending at any time (the
single slot), and a frame arriving while the previous pair is unrendered
overwrites the slot — the OLD frame is dropped, the mesh is not recomputed,
and nothing is queued. -/
theorem single_slot_overwrite (s : SysState) (f : Frame) :
    pendingPairs s ≤ 1
    ∧ (s.new_cloud_ = true → cloud_cb f s = { s with cloud_ := some f }) := by
  constructor
  · unfold pendingPairs
    split <;> simp
  · exact cloud_cb_pending f s

/-- C5, witness: the overwrite branch evaluated at the state after one
capture. -/
theorem single_slot_overwrite_witness :
    pendingPairs (cloud_cb ⟨1⟩ initState) ≤ 1
    ∧ cloud_cb ⟨2⟩ (cloud_cb ⟨1⟩ initState) =
        { cloud_cb ⟨1⟩ initState with cloud_ := some ⟨2⟩ } :=
  ⟨(single_slot_overwrite (cloud_cb ⟨1⟩ initState) ⟨2⟩).1,
   (single_slot_overwrite (cloud_cb ⟨1⟩ initState) ⟨2⟩).2 rfl⟩

/-- C6.  A render invocation in a state with no pending frame returns the
state unchanged: no viewer mutation, no change to `cloud_`, `mesh_`,
`vertices_` or `new_cloud_` (the handler only sleeps 1 ms and returns). -/
theorem render_idle_no_mutation (s : SysState) (h : s.new_cloud_ = false) :
    viz_cb s = some s :=
  viz_cb_idle s h

/-- C6, witness: the idle render evaluated at the initial state. -/
theorem render_idle_no_mutation_witness : viz_cb initState = some initState :=
  render_idle_no_mutation initState rfl

/-- C7.  If the first command-line argument is `--help` or `-h`, `main`
prints the device usage information and exits with status 1; any other
argument value is ignored — the viewer always runs with the empty (default)
device id — and the run exits with status 0. -/
theorem main_cli_contract (args : List String) (rgb : Bool) :
    ((args.head?).getD "" = "--help" ∨ (args.head?).getD "" = "-h" →
      mainProg args rgb = { exitCode := 1, printedUsage := true, ranViewer := none })
    ∧ ((args.head?).getD "" ≠ "--help" → (args.head?).getD "" ≠ "-h" →
      mainProg args rgb =
        { exitCode := 0
          printedUsage := false
          ranViewer := some ("", if rgb then .XYZRGB else .XYZ) }) := by
  constructor
  · intro h
    rcases h with h | h <;> simp [mainProg, h]
  · intro h1 h2
    simp [mainProg, h1, h2]

/-- C7, witness: both branches evaluated — the help flag, and an arbitrary
ignored argument. -/
theorem main_cli_contract_witness :
    mainProg ["--help"] true = { exitCode := 1, printedUsage := true, ranViewer := none }
    ∧ mainProg ["some_device"] true =
        { exitCode := 0, printedUsage := false, ranViewer := some ("", .XYZRGB) } :=
  ⟨(main_cli_contract ["--help"] true).1 (Or.inl rfl),
   (main_cli_contract ["some_device"] true).2 (by decide) (by decide)⟩

/-- C8.  From a call-site state with the counter at zero and `last = l`
(`l` being the previous report instant, or the first-invocation instant at
call-site initialisation), any 100 invocations emit exactly one rate
report, of value 100 divided by the elapsed time from `l` to the last
invocation, and leave the counter at zero. -/
theorem fps_hundred_invocations_one_report (l : ℚ) (ts : List ℚ)
    (h : ts.length = 100) :
    fpsRun ts { count := 0, last := l } =
      ({ count := 0, last := lastD ts l }, [100 / (lastD ts l - l)]) := by
  cases ts with
  | nil => simp at h
  | cons t ts =>
      have := fpsRun_report t ts { count := 0, last := l } (by simp at h ⊢; omega)
      exact this

/-- C8, witness: one hundred invocations at instants 1, 2, ..., 100. -/
theorem fps_hundred_invocations_one_report_witness :
    fpsRun ((List.range 100).map (fun n : ℕ => (n : ℚ) + 1)) { count := 0, last := 1 } =
      ({ count := 0, last := lastD ((List.range 100).map (fun n : ℕ => (n : ℚ) + 1)) 1 },
       [100 / (lastD ((List.range 100).map (fun n : ℕ => (n : ℚ) + 1)) 1 - 1)]) :=
  fps_hundred_invocations_one_report 1 _ (by rw [List.length_map, List.length_range])

/-- C9, counterexample.  On the consuming path of the render handler, the
reads of `new_cloud_` and the swap of `cloud_` happen before the mutex is
acquired: not every access to the shared triple holds the mutex.  The three
unlocked accesses are listed explicitly. -/
theorem mutex_serializes_counterexample :
    allSharedAccessesLocked vizCbOpsConsume = false
    ∧ unlockedSharedAccesses vizCbOpsConsume =
        [.readShared .flagVar, .readShared .cloudVar, .writeShared .cloudVar]
    ∧ allSharedAccessesLocked vizCbOpsIdle = false := by
  exact ⟨rfl, rfl, rfl⟩

/-- C9 (amended).  The capture handler accesses the shared triple only while
holding the mutex, and neither handler performs its blocking sleep while
holding it; the render handler, however, reads `new_cloud_` (both paths) and
swaps `cloud_` (consuming path) before acquiring the mutex, holding it only
for the mesh read, the viewer update and the flag clear. -/
theorem mutex_discipline_actual :
    allSharedAccessesLocked cloudCbOpsCompute = true
    ∧ allSharedAccessesLocked cloudCbOpsSkip = true
    ∧ noBlockingWhileLocked cloudCbOpsCompute = true
    ∧ noBlockingWhileLocked cloudCbOpsSkip = true
    ∧ noBlockingWhileLocked vizCbOpsIdle = true
    ∧ noBlockingWhileLocked vizCbOpsConsume = true
    ∧ unlockedSharedAccesses vizCbOpsIdle = [.readShared .flagVar]
    ∧ unlockedSharedAccesses vizCbOpsConsume =
        [.readShared .flagVar, .readShared .cloudVar, .writeShared .cloudVar] := by
  exact ⟨rfl, rfl, rfl, rfl, rfl, rfl, rfl, rfl⟩

/-- C10.  A render that consumes a pending pair (in any reachable state)
leaves the frame slot null and `new_cloud_` false, so the next capture
recomputes the mesh from its frame; the very first capture, from the
constructor state, does so as well. -/
theorem consume_empties_slot (evs : List Event) (s : SysState) (f : Frame)
    (h : runEvents evs initState = some s) (hp : s.new_cloud_ = true) :
    (∃ s', viz_cb s = some s' ∧ s'.cloud_ = none ∧ s'.new_cloud_ = false ∧
      (cloud_cb f s').mesh_ = some (reconstruct ofmParams f))
    ∧ initState.new_cloud_ = false
    ∧ (cloud_cb f initState).mesh_ = some (reconstruct ofmParams f) := by
  have hinv := slotInv_reachable evs s h
  obtain ⟨m, hm⟩ := Option.isSome_iff_exists.mp (hinv hp).2
  refine ⟨⟨_, viz_cb_consume s m hp hm, rfl, rfl, ?_⟩, rfl, ?_⟩
  · rw [cloud_cb_fresh _ _ rfl]
  · rw [cloud_cb_fresh _ _ rfl]

/-- C10, witness: the theorem applied after a single capture, with a fresh
frame for the follow-up capture. -/
theorem consume_empties_slot_witness :
    (∃ s', viz_cb (cloud_cb ⟨1⟩ initState) = some s' ∧ s'.cloud_ = none ∧
      s'.new_cloud_ = false ∧
      (cloud_cb ⟨2⟩ s').mesh_ = some (reconstruct ofmParams ⟨2⟩))
    ∧ initState.new_cloud_ = false
    ∧ (cloud_cb ⟨2⟩ initState).mesh_ = some (reconstruct ofmParams ⟨2⟩) :=
  consume_empties_slot [.capture ⟨1⟩] (cloud_cb ⟨1⟩ initState) ⟨2⟩ rfl rfl

end OpenNIFastMesh
